import Mathlib

/-!
Verification of the 4-D Neuroimaging (BTi) binary reader and coordinate
transform pipeline in `mne/fiff/bti.py`.

The Python source is shallowly embedded:

* the byte stream (`fid`) becomes a `Stream`: an immutable list of byte
  values together with a current position; `fid.read(n)` becomes `readNS`,
  `fid.seek(n, os.SEEK_CUR)` becomes `seekS`;
* the primitive readers (`_unpack_simple` with a big-endian `struct` format)
  become `Option`-valued functions that fail exactly where `struct.unpack`
  raises (stream exhausted before the requested byte count);
* 32/64-bit IEEE float fields are kept as their raw big-endian bit patterns
  (naturals): no arithmetic in any claim depends on the IEEE decoding;
* 4x4 homogeneous transforms (`numpy` arrays indexed through
  `BTI.T_ROT_IX`, `BTI.T_TRANS_IX`, `BTI.T_SCA_IX`) become a `T4` record
  holding the three disjoint index blocks, with entries in `ℚ` (exact
  arithmetic standing in for floating point).

The numeric constants of `mne/fiff/constants.py` (`BTI.*`) are not part of
the source tree; where a definition needs one it is modelled from the spec,
and every such constant is marked `Modelled from the spec:` in its
doc comment.  No claim below depends on the particular value of a record
width constant.
-/

namespace BtiSpec

/-- A seekable big-endian byte source: the file contents as a list of byte
values (each `< 256` in real files, though nothing below needs that bound)
plus the current read position. -/
structure Stream where
  data : List ℕ
  pos : ℕ
deriving DecidableEq, Repr

/-- Read exactly `n` bytes at the current position, advancing by `n`;
fails when the stream is exhausted before `n` bytes are available, exactly
where `struct.unpack` raises on a short `fid.read` result. -/
def readNS (n : ℕ) (s : Stream) : Option (List ℕ × Stream) :=
  if s.pos + n ≤ s.data.length then
    some ((s.data.drop s.pos).take n, ⟨s.data, s.pos + n⟩)
  else
    none

/-- Model of `fid.seek(n, os.SEEK_CUR)` for a forward skip of `n` bytes.
Seeking past the end of the data is allowed, as in Python. -/
def seekS (n : ℕ) (s : Stream) : Stream :=
  ⟨s.data, s.pos + n⟩

/-- Big-endian unsigned interpretation of a byte list (most significant
byte first), the value `struct.unpack` assigns to the formats `B`, `H`,
`I`, `Q`. -/
def beUnsigned (bs : List ℕ) : ℕ :=
  bs.foldl (fun a b => a * 256 + b) 0

/-- Modelled from the spec: two's-complement reinterpretation of a `w`-bit
unsigned value, the value `struct.unpack` assigns to the signed formats
`b`, `h`, `i`, `q`. -/
def toSigned (w v : ℕ) : ℤ :=
  if v < 2 ^ (w - 1) then (v : ℤ) else (v : ℤ) - 2 ^ w

/-- `bti_read_uint16` (source line 94): format `>H`, 2 bytes, unsigned. -/
def bti_read_uint16S (s : Stream) : Option (ℕ × Stream) :=
  (readNS 2 s).map (fun p => (beUnsigned p.1, p.2))

/-- `bti_read_int16` (source lines 100-103).  The source passes the format
`'>' + ('H' * count)` to `_unpack_simple` — the UNSIGNED big-endian 16-bit
format, identical to `bti_read_uint16` — although its docstring ("Read
16bit integer", against "Read unsigned 16bit integer" for `uint16`) and
every other `bti_read_intN` reader (`b`, `i`, `q`) promise the signed
format `h`.  The embedding follows the code: the decoded value is the
unsigned big-endian interpretation. -/
def bti_read_int16S (s : Stream) : Option (ℕ × Stream) :=
  (readNS 2 s).map (fun p => (beUnsigned p.1, p.2))

/-- Modelled from the spec: the signed big-endian two's-complement reading
of two bytes that the primitive-reader contract of §4.1 promises for a
16-bit signed integer (`0xFF 0xFF` decodes to `-1`). -/
def int16_be_signed (b0 b1 : ℕ) : ℤ :=
  toSigned 16 (b0 * 256 + b1)

/-- `bti_read_int32` (source line 112): format `>i`, 4 bytes, signed. -/
def bti_read_int32S (s : Stream) : Option (ℤ × Stream) :=
  (readNS 4 s).map (fun p => (toSigned 32 (beUnsigned p.1), p.2))

/-- `bti_read_uint32` (source line 106): format `>I`, 4 bytes, unsigned. -/
def bti_read_uint32S (s : Stream) : Option (ℕ × Stream) :=
  (readNS 4 s).map (fun p => (beUnsigned p.1, p.2))

/-- `bti_read_int64` (source line 124): format `>q`, 8 bytes, signed. -/
def bti_read_int64S (s : Stream) : Option (ℤ × Stream) :=
  (readNS 8 s).map (fun p => (toSigned 64 (beUnsigned p.1), p.2))

/-- `bti_read_float` (source line 130): format `>f`, 4 bytes.  The value is
kept as the raw big-endian bit pattern; no claim interprets IEEE floats. -/
def bti_read_floatS (s : Stream) : Option (ℕ × Stream) :=
  (readNS 4 s).map (fun p => (beUnsigned p.1, p.2))

/-- `bti_read_double` (source line 136): format `>d`, 8 bytes, raw bits. -/
def bti_read_doubleS (s : Stream) : Option (ℕ × Stream) :=
  (readNS 8 s).map (fun p => (beUnsigned p.1, p.2))

/-- `bti_read_str` (source line 62): read `n` one-byte characters and
truncate at the first null byte. -/
def bti_read_strS (n : ℕ) (s : Stream) : Option (List ℕ × Stream) :=
  (readNS n s).map (fun p => (p.1.takeWhile (fun b => b != 0), p.2))

/-- `bti_read_char` (source line 70): `n` raw one-byte characters. -/
def bti_read_charS (n : ℕ) (s : Stream) : Option (List ℕ × Stream) :=
  readNS n s

/-- `bti_read_transform` (source line 165): a 4 x 4 matrix of big-endian
64-bit doubles, 128 bytes; kept as the raw bytes (no claim uses the
numeric content of an on-disk transform). -/
def bti_read_transformS (s : Stream) : Option (List ℕ × Stream) :=
  readNS 128 s

/-- Modelled from the spec: `BTI.FILE_CURPOS`, the fixed block-alignment
constant of the format (§ Block alignment).  Its numeric value is not in
the source tree; the idempotence claim is proved for every positive value
and the decoders below use this fixed representative. -/
def FILE_CURPOS : ℕ := 8

/-- Position arithmetic of `_correct_offset` (source lines 422-428) for a
block size `b`: if the current position is not a multiple of `b`, advance
to the next multiple of `b`. -/
def correct_offset (b cur : ℕ) : ℕ :=
  if cur % b ≠ 0 then cur + (b - cur % b) else cur

/-- `_correct_offset` (source lines 422-428) acting on the stream. -/
def _correct_offset (s : Stream) : Stream :=
  ⟨s.data, correct_offset FILE_CURPOS s.pos⟩

/-!
## Coordinate transform engine (source lines 173-260)

Modelled from the spec: the index constants `BTI.T_ROT_IX`,
`BTI.T_TRANS_IX` and `BTI.T_SCA_IX` that `_inverse_t`, `_apply_t` and
`_merge_t` use to address a 4 x 4 homogeneous matrix are not in the source
tree.  Per §4.4 and §3 of the spec the rotation block is the top-left
3 x 3, the translation block the top-right 3 x 1, and the remaining scale
block the bottom row (the spec's "bottom row = [0,0,0,1]" homogeneous
invariant, which `_m_to_nm_coil_trans` re-establishes by zeroing
`[3, :3]`).  These three blocks partition the 4 x 4 matrix, so a transform
is embedded as a record of the three blocks, with exact `ℚ` entries.
-/

/-- A 3 x 3 matrix block, row index first. -/
abbrev Mat3 := Fin 3 → Fin 3 → ℚ

/-- A 3-entry column block. -/
abbrev Vec3 := Fin 3 → ℚ

/-- Matrix product of two 3 x 3 blocks (`np.dot` on the rotation block). -/
def mat3Mul (A B : Mat3) : Mat3 :=
  fun i j => A i 0 * B 0 j + A i 1 * B 1 j + A i 2 * B 2 j

/-- Transpose of a 3 x 3 block (`t[rot].T`). -/
def mat3Tr (A : Mat3) : Mat3 :=
  fun i j => A j i

/-- Matrix-vector product of a 3 x 3 block and a translation block. -/
def mat3Vec (A : Mat3) (v : Vec3) : Vec3 :=
  fun i => A i 0 * v 0 + A i 1 * v 1 + A i 2 * v 2

/-- The identity 3 x 3 block. -/
def mat3Id : Mat3 :=
  fun i j => if i = j then 1 else 0

/-- A 4 x 4 homogeneous transform matrix, split into its three disjoint
index blocks `T_ROT_IX` (top-left 3 x 3), `T_TRANS_IX` (top-right 3 x 1)
and `T_SCA_IX` (bottom row, 4 entries). -/
structure T4 where
  rot : Mat3
  trans : Vec3
  scal : Fin 4 → ℚ

/-- Modelled from the spec: `BTI.T_IDENT`, the 4 x 4 identity transform —
identity rotation, zero translation, bottom row `(0, 0, 0, 1)`. -/
def identT : T4 :=
  ⟨mat3Id, fun _ => 0, fun j => if j = 3 then 1 else 0⟩

/-- `_inverse_t(x, t)` (source lines 228-238), blockwise:
`x[scal] *= t[scal]` (note: the source MULTIPLIES the scale block, it does
not divide); `x[rot] = t[rot].T · x[rot]`; `x[trans] -= t[trans]` followed
by `x[trans] = t[rot].T · x[trans]`.  The three blocks are disjoint, so
the in-place updates commute into a record literal. -/
def inverseT (x t : T4) : T4 :=
  ⟨mat3Mul (mat3Tr t.rot) x.rot,
   mat3Vec (mat3Tr t.rot) (fun i => x.trans i - t.trans i),
   fun j => x.scal j * t.scal j⟩

/-- `_apply_t(x, t)` (source lines 241-250), blockwise:
`x[rot] = t[rot] · x[rot]`; `x[trans] = t[rot] · x[trans]` then
`x[trans] += t[trans]`; `x[scal] *= t[scal]`. -/
def applyT (x t : T4) : T4 :=
  ⟨mat3Mul t.rot x.rot,
   fun i => mat3Vec t.rot x.trans i + t.trans i,
   fun j => x.scal j * t.scal j⟩

/-- `_merge_t(t1, t2)` (source lines 253-260): start from a fresh copy of
`BTI.T_IDENT`, overwrite the rotation block with `t1[rot] · t2[rot]` and
the translation block with `t1[rot] · t2[trans] + t1[trans]`.  The scale
block (bottom row) is never written, so it keeps the identity's
`(0, 0, 0, 1)` whatever `t1` and `t2` hold there. -/
def mergeT (t1 t2 : T4) : T4 :=
  ⟨mat3Mul t1.rot t2.rot,
   fun i => mat3Vec t1.rot t2.trans i + t1.trans i,
   identT.scal⟩

/-- Concrete transform for the inverse/forward round trip: identity
rotation and translation, scale row `(1, 1, 1, 2)` — every scale entry
nonzero, one of them different from `±1`. -/
def t0C1 : T4 :=
  ⟨mat3Id, fun _ => 0, fun j => if j = 3 then 2 else 1⟩

/-- Concrete transform with non-orthogonal rotation block `2·I`, zero
translation and scale row all ones. -/
def t1C1 : T4 :=
  ⟨fun i j => if i = j then 2 else 0, fun _ => 0, fun _ => 1⟩

/-- Concrete transform for the merge identity laws: identity rotation and
translation but scale row `(1, 1, 1, 2)`, differing from the identity's
bottom row. -/
def tC7 : T4 :=
  ⟨mat3Id, fun _ => 0, fun j => if j = 3 then 2 else 1⟩

/-- Orthogonal witness transform: identity rotation, zero translation,
scale row all ones (each entry squares to 1). -/
def tW1 : T4 :=
  ⟨mat3Id, fun _ => 0, fun _ => 1⟩

/-!
## Channel renaming (`_rename_channels`, source lines 263-297)

The generator walks the ordered label list with `enumerate(names, 1)` and
four `itertools.count(1)` counters (`ref_mag`, `ref_grad`, `eog`, `ext`),
each advanced by `.next()` only inside its own branch of the `if`/`elif`
chain.  `'%3.3d' % n` zero-pads to three digits (wider when `n > 999`).
-/

/-- Python `'%3.3d' % n`: decimal, zero-padded to width 3. -/
def pad3 (n : ℕ) : String :=
  if n < 10 then "00" ++ toString n
  else if n < 100 then "0" ++ toString n
  else toString n

/-- One step of the `_rename_channels` branch chain (source lines
278-297), given the 1-based position `i` and the current values of the
four category counters. -/
def renameOne (name : String) (i eogC magC gradC extC : ℕ) : String :=
  if name.startsWith "A" then "MEG " ++ pad3 i
  else if name = "RESPONSE" then "SRI 013"
  else if name = "TRIGGER" then "STI 014"
  else if name.startsWith "EOG" then "EOG " ++ pad3 eogC
  else if name = "ECG" then "ECG 001"
  else if name = "UACurrent" then "UTL 001"
  else if name.startsWith "M" then "RFM " ++ pad3 magC
  else if name.startsWith "G" then "RFG " ++ pad3 gradC
  else if name.startsWith "X" then "EXT " ++ pad3 extC
  else name

/-- Whether a label reaches the `EOG` branch of the chain (every earlier
branch condition fails and the label starts with `"EOG"`). -/
def hitsEOG (n : String) : Bool :=
  !n.startsWith "A" && !(n == "RESPONSE") && !(n == "TRIGGER") && n.startsWith "EOG"

/-- Whether a label reaches the reference-magnetometer (`RFM`) branch. -/
def hitsMag (n : String) : Bool :=
  !n.startsWith "A" && !(n == "RESPONSE") && !(n == "TRIGGER") &&
    !n.startsWith "EOG" && !(n == "ECG") && !(n == "UACurrent") && n.startsWith "M"

/-- Whether a label reaches the reference-gradiometer (`RFG`) branch. -/
def hitsGrad (n : String) : Bool :=
  !n.startsWith "A" && !(n == "RESPONSE") && !(n == "TRIGGER") &&
    !n.startsWith "EOG" && !(n == "ECG") && !(n == "UACurrent") &&
    !n.startsWith "M" && n.startsWith "G"

/-- Whether a label reaches the external (`EXT`) branch. -/
def hitsExt (n : String) : Bool :=
  !n.startsWith "A" && !(n == "RESPONSE") && !(n == "TRIGGER") &&
    !n.startsWith "EOG" && !(n == "ECG") && !(n == "UACurrent") &&
    !n.startsWith "M" && !n.startsWith "G" && n.startsWith "X"

/-- The generator loop of `_rename_channels`: position counter `i` and the
four category counters are threaded through the list; a counter advances
exactly when its branch fires. -/
def renameGo (i eogC magC gradC extC : ℕ) : List String → List String
  | [] => []
  | n :: rest =>
    renameOne n i eogC magC gradC extC ::
      renameGo (i + 1) (eogC + if hitsEOG n then 1 else 0)
        (magC + if hitsMag n then 1 else 0) (gradC + if hitsGrad n then 1 else 0)
        (extC + if hitsExt n then 1 else 0) rest

/-- `_rename_channels(names)` (source lines 263-297) as the list of yielded
names: `enumerate(names, 1)` and all four `count(1)` counters start at 1. -/
def _rename_channels (names : List String) : List String :=
  renameGo 1 1 1 1 1 names

/-- The renaming the claim describes, as a function of the position `k`
(0-based) in the input list alone: MEG names use the 1-based position,
each category counter is 1 plus the number of earlier labels reaching the
same branch. -/
def renameSpecAt (names : List String) (k : ℕ) : String :=
  renameOne (names.getD k "") (k + 1)
    (1 + (names.take k).countP hitsEOG)
    (1 + (names.take k).countP hitsMag)
    (1 + (names.take k).countP hitsGrad)
    (1 + (names.take k).countP hitsExt)

/-!
## Head-shape point classification (`convert_head_shape`, source lines 300-373)

The head of `convert_head_shape` (lines 323-351) derives a planar rigid
registration from the first three index points (using `sqrt`, so it lives
outside exact arithmetic) and stacks the transformed fiducials and
digitization points into `all_points`, whose row count is
`len(idx_points) + len(dig_points)`.  The classification/append loop over
`all_points` (lines 352-371) is embedded below exactly; the claims about
point classification concern only this loop.  (The preceding numeric part
also contains a transcription defect: `np.dot(t[T_ROT_IX], dpnts)` at line
348 needs `dpnts` transposed unless there are exactly 3 digitization
points.)
-/

/-- A 3-D point row; its coordinates are opaque to the classification
loop. -/
abbrev Pt := List ℚ

/-- The three digitization point kinds assigned by the loop.  Modelled
from the spec: the numeric `FIFF.FIFFV_POINT_CARDINAL/HPI/EXTRA` constants
are not in the source tree; only their distinctness matters. -/
inductive DigKind where
  | cardinal
  | hpi
  | extra
deriving DecidableEq, Repr

/-- One entry of the returned `dig` list: `kind` and `ident` start from
the `FIFF_INFO_DIG_DEFAULTS` value `None` and are set (or not) by the
classification conditionals; `r` is the point row. -/
structure DigPt where
  kind : Option DigKind
  ident : Option ℤ
  r : Pt
deriving DecidableEq, Repr

/-- `fiducials_idents` (source line 352):
`range(1, 4) + range(1, (len(fp) + 1) - 3)`. -/
def fiducials_idents (n_idx : ℕ) : List ℤ :=
  [1, 2, 3] ++ (List.range (n_idx - 3)).map (fun k => (k : ℤ) + 1)

/-- The `point_info` built for index `idx` by the conditionals at source
lines 355-366: default `kind`/`ident` are `None`; `idx < 3` sets the
cardinal kind; an independent second chain sets the HPI kind when
`2 < idx < len(idx_points)` and `use_hpi`, or (its `elif`) the extra kind
when `idx > 4`. -/
def dig_point (n_idx : ℕ) (use_hpi : Bool) (idx : ℕ) (r : Pt) : DigPt :=
  let fi := fiducials_idents n_idx
  let p0 : DigPt := ⟨none, none, r⟩
  let p1 :=
    if idx < 3 then { p0 with kind := some DigKind.cardinal, ident := fi.get? idx }
    else p0
  if 2 < idx ∧ idx < n_idx ∧ use_hpi = true then
    { p1 with kind := some DigKind.hpi, ident := fi.get? idx }
  else if 4 < idx then
    { p1 with kind := some DigKind.extra,
              ident := some ((idx : ℤ) + 1 - (fi.length : ℤ)) }
  else p1

/-- The classification/append loop over `all_points` (source lines
354-371), with `idx` the running row index: the point is appended unless
`2 < idx < len(idx_points)` and `use_hpi` is false. -/
def convert_dig_go (n_idx : ℕ) (use_hpi : Bool) (idx : ℕ) : List Pt → List DigPt
  | [] => []
  | r :: rest =>
    if 2 < idx ∧ idx < n_idx ∧ use_hpi = false then
      convert_dig_go n_idx use_hpi (idx + 1) rest
    else
      dig_point n_idx use_hpi idx r :: convert_dig_go n_idx use_hpi (idx + 1) rest

/-- The `dig` list returned by `convert_head_shape`, as a function of the
stacked point rows `all_points`, the index-point count `len(idx_points)`
and `use_hpi`. -/
def convert_head_shape_dig (all_points : List Pt) (n_idx : ℕ) (use_hpi : Bool) :
    List DigPt :=
  convert_dig_go n_idx use_hpi 0 all_points

/-- The classification the claim describes, per index: indices 0-2
cardinal, indices 3 to `n_idx - 1` head-position-indicator, all later
indices extra. -/
def claimed_kind (n_idx idx : ℕ) : DigKind :=
  if idx < 3 then DigKind.cardinal
  else if idx < n_idx then DigKind.hpi
  else DigKind.extra

/-- The output the claim describes, projected to `(kind, point)` pairs:
cardinal and extra points always kept, HPI points kept exactly when
`use_hpi` is set. -/
def convert_dig_claimed_go (n_idx : ℕ) (use_hpi : Bool) (idx : ℕ) :
    List Pt → List (Option DigKind × Pt)
  | [] => []
  | r :: rest =>
    if idx < 3 ∨ n_idx ≤ idx ∨ use_hpi = true then
      (some (claimed_kind n_idx idx), r) ::
        convert_dig_claimed_go n_idx use_hpi (idx + 1) rest
    else
      convert_dig_claimed_go n_idx use_hpi (idx + 1) rest

/-- Five identical point rows, fed to the loop with an index-point count
of 4. -/
def ptsC6 : List Pt :=
  List.replicate 5 ([0, 0, 0] : List ℚ)

/-- Six point rows for the classification witness. -/
def ptsC6W : List Pt :=
  List.replicate 6 ([0, 0, 0] : List ℚ)

/-!
## Raw-data reading (`read_raw_data`, source lines 780-830)

The function validates the caller-supplied slice range against
`info['total_slices']` (after substituting the defaults `start = 0`,
`stop = total_slices`) and raises `RuntimeError` BEFORE the
`info['fid'].seek(...)` call, so a range error leaves the duplicated file
handle's position untouched.  The embedding tracks the part of the
behaviour the range claim is about: the validation, the absolute seek to
`bytes_per_slice * start`, and the `np.fromfile` read of
`(stop - start) * total_chans` elements of the stored element type (which
advances the handle by that many `itemsize`-byte elements).  The optional
`order='by_name'` step (lines 823-830) permutes rows of the already-read
array and never touches the file handle; it is not modelled. -/

/-- The fields of the PDF `info` mapping that `read_raw_data` consults,
plus the duplicated file handle's current position. -/
structure PdfRunInfo where
  total_slices : ℤ
  total_chans : ℤ
  bytes_per_slice : ℤ
  dtype_itemsize : ℤ
  fid_pos : ℤ
deriving DecidableEq, Repr

/-- The `RuntimeError` message of source lines 813-814. -/
def rangeErrorMsg (a b : ℤ) : String :=
  "Invalid data range supplied: " ++ toString a ++ ", " ++ toString b

/-- `read_raw_data(info, start, stop)` (source lines 806-821): result is
the element count read on success, paired with the file handle's position
after the call. -/
def read_raw_data (info : PdfRunInfo) (start0 stop0 : Option ℤ) :
    Except String ℤ × ℤ :=
  if start0.getD 0 < 0 ∨ stop0.getD info.total_slices > info.total_slices ∨
      start0.getD 0 ≥ stop0.getD info.total_slices then
    (Except.error (rangeErrorMsg (start0.getD 0) (stop0.getD info.total_slices)),
     info.fid_pos)
  else
    (Except.ok ((stop0.getD info.total_slices - start0.getD 0) * info.total_chans),
     info.bytes_per_slice * start0.getD 0 +
       (stop0.getD info.total_slices - start0.getD 0) * info.total_chans *
         info.dtype_itemsize)

/-- Concrete run info for the range-check witness: 5 total slices, file
handle parked at position 7. -/
def infoC5 : PdfRunInfo :=
  ⟨5, 2, 10, 2, 7⟩

/-!
## Channel-config decoding (`_read_ch_config`, source lines 730-777)

Record widths and channel-type enumerants come from `constants.py`, which
is not in the source tree.  Modelled from the spec: the width constants
below are positive placeholders (no claim depends on their values) and
the channel-type tags are the eight distinct enumerants the dispatch names
(MEG, EEG, reference, external, trigger, utility, derived, shorted).

Two transcription defects shape this function.  (1) At line 738 the
source calls `fid.seek(fid, BTI.FILE_CONF_CH_NEXT, os.SEEK_CUR)` — THREE
arguments to a file object's `seek(offset[, whence])` — which raises
`TypeError` unconditionally, before the channel-type dispatch is ever
reached: as transcribed, `_read_ch_config` can never return a config, for
recognized and unrecognized tags alike.  The embedding models the crash
faithfully: `_read_ch_config` decodes the four fields ahead of the
malformed call and then fails with `seekTypeError` on every record; the
remainder of the function (lines 739-777) is transcribed as the
unreachable `_read_ch_config_rest`.  (2) The MEG/reference branch of the
(unreachable) dispatch at lines 753-755 iterates over
`chan['dev']['total_loops']`, a key `_read_dev_hdr` never produces (its
record has only `size`, `checksum`, `reserved`), so that branch would
raise `KeyError` before reading any coil definition; it is embedded as a
failing decode. -/

/-- Modelled from the spec: `BTI.FILE_CONF_CH_NAME` (channel-name field
width). -/
def FILE_CONF_CH_NAME : ℕ := 4

/-- Modelled from the spec: `BTI.FILE_CONF_CH_NEXT` (reserved skip after
the sensor number). -/
def FILE_CONF_CH_NEXT : ℕ := 2

/-- Modelled from the spec: `BTI.FILE_CONF_CH_YLABEL` (y-axis label field
width). -/
def FILE_CONF_CH_YLABEL : ℕ := 4

/-- Modelled from the spec: `BTI.FILE_CONF_CH_RESERVED` (reserved field
width, also used by the device header). -/
def FILE_CONF_CH_RESERVED : ℕ := 4

/-- Modelled from the spec: `BTI.FILE_CONF_CH_PADDING` (EEG padding field
width). -/
def FILE_CONF_CH_PADDING : ℕ := 4

/-- Modelled from the spec: `BTI.CHTYPE_MEG`. -/
def CHTYPE_MEG : ℕ := 1

/-- Modelled from the spec: `BTI.CHTYPE_EEG`. -/
def CHTYPE_EEG : ℕ := 2

/-- Modelled from the spec: `BTI.CHTYPE_REF`. -/
def CHTYPE_REF : ℕ := 3

/-- Modelled from the spec: `BTI.CHTYPE_EXTERNAL`. -/
def CHTYPE_EXTERNAL : ℕ := 4

/-- Modelled from the spec: `BTI.CHTYPE_TRIGGER`. -/
def CHTYPE_TRIGGER : ℕ := 5

/-- Modelled from the spec: `BTI.CHTYPE_UTILITY`. -/
def CHTYPE_UTILITY : ℕ := 6

/-- Modelled from the spec: `BTI.CHTYPE_DERIVED`. -/
def CHTYPE_DERIVED : ℕ := 7

/-- Modelled from the spec: `BTI.CHTYPE_SHORTED`. -/
def CHTYPE_SHORTED : ℕ := 8

/-- The channel-type tags the dispatch of `_read_ch_config` recognizes. -/
def recognized_ch_types : List ℕ :=
  [CHTYPE_MEG, CHTYPE_REF, CHTYPE_EEG, CHTYPE_TRIGGER, CHTYPE_EXTERNAL,
   CHTYPE_UTILITY, CHTYPE_DERIVED, CHTYPE_SHORTED]

/-- `_read_dev_hdr` (source lines 711-715). -/
structure DevHdr where
  size : ℤ
  checksum : ℤ
  reservedBytes : List ℕ
deriving DecidableEq, Repr

/-- Decode a device header: `int32`, `int32`, reserved string. -/
def _read_dev_hdr (s : Stream) : Option (DevHdr × Stream) := do
  let (sz, s) ← bti_read_int32S s
  let (ck, s) ← bti_read_int32S s
  let (res, s) ← bti_read_strS FILE_CONF_CH_RESERVED s
  pure (⟨sz, ck, res⟩, s)

/-- The type-specific tail of a channel config (`chan`, source lines
751-773); a record whose channel-type tag matches no recognized enumerant
carries no type-specific fields at all. -/
inductive ChanRest where
  | eeg (impedance : ℕ) (padding : List ℕ) (transform : List ℕ)
      (reservedBytes : List ℕ)
  | trig (user_space_size : ℤ) (reservedBytes : List ℕ)
  | shorted (reservedBytes : List ℕ)
  | unknownTag
deriving DecidableEq, Repr

/-- The channel-type dispatch of `_read_ch_config` (source lines 753-771).
MEG/reference: the source immediately evaluates
`chan['dev']['total_loops']`, a missing key, so the decode fails.  EEG:
impedance float, padding string, 4 x 4 transform, reserved chars.
Trigger/external/utility/derived: `user_space_size` int32 (trigger skips 2
extra bytes), reserved string.  Shorted: reserved string only.  The chain
has NO `else` branch: any other tag falls through with `chan` holding only
the device header, consuming nothing and raising nothing. -/
def _read_ch_chan (ch_type : ℕ) (s : Stream) : Option (ChanRest × Stream) :=
  if ch_type = CHTYPE_MEG ∨ ch_type = CHTYPE_REF then
    none
  else if ch_type = CHTYPE_EEG then do
    let (imp, s) ← bti_read_floatS s
    let (pad, s) ← bti_read_strS FILE_CONF_CH_PADDING s
    let (tfm, s) ← bti_read_transformS s
    let (res, s) ← bti_read_charS FILE_CONF_CH_RESERVED s
    pure (ChanRest.eeg imp pad tfm res, s)
  else if ch_type = CHTYPE_TRIGGER ∨ ch_type = CHTYPE_EXTERNAL ∨
      ch_type = CHTYPE_UTILITY ∨ ch_type = CHTYPE_DERIVED then do
    let (uss, s) ← bti_read_int32S s
    let s := if ch_type = CHTYPE_TRIGGER then seekS 2 s else s
    let (res, s) ← bti_read_strS FILE_CONF_CH_RESERVED s
    pure (ChanRest.trig uss res, s)
  else if ch_type = CHTYPE_SHORTED then do
    let (res, s) ← bti_read_strS FILE_CONF_CH_RESERVED s
    pure (ChanRest.shorted res, s)
  else
    pure (ChanRest.unknownTag, s)

/-- One decoded channel-config record (source lines 730-777). -/
structure ChConfig where
  name : List ℕ
  chan_no : ℕ
  ch_type : ℕ
  sensor_no : ℕ
  gain : ℕ
  units_per_bit : ℕ
  yaxis_label : List ℕ
  aar_val : ℕ
  checksum : ℤ
  reservedBytes : List ℕ
  chan_dev : DevHdr
  chan_rest : ChanRest
deriving DecidableEq, Repr

/-- The Python exceptions `_read_ch_config` can raise: the unconditional
`TypeError` of the malformed seek call, and the `struct.error` of an
exhausted stream. -/
inductive PyErr where
  | typeError (msg : String)
  | structError (msg : String)
deriving DecidableEq, Repr

/-- The `TypeError` Python raises at source line 738:
`fid.seek(fid, BTI.FILE_CONF_CH_NEXT, os.SEEK_CUR)` passes three
arguments to a file object's `seek(offset[, whence])`.  It carries no
information about the record or any of its fields. -/
def seekTypeError : PyErr :=
  PyErr.typeError "seek() takes at most 2 arguments (3 given)"

/-- The `struct.error` raised when the stream is exhausted before the
requested byte count. -/
def structReadError : PyErr :=
  PyErr.structError "unpack requires more bytes than available"

/-- The remainder of `_read_ch_config` after the malformed seek (source
lines 739-777): the skip the call evidently intended, the remaining
header fields, offset correction, device header, channel-type dispatch
and final offset correction.  UNREACHABLE in the source — the `TypeError`
at line 738 fires first on every record — and transcribed here only so
the record layout and the dispatch stay anchored to the code. -/
def _read_ch_config_rest (name : List ℕ) (chan_no ch_type sensor_no : ℕ)
    (s : Stream) : Option (ChConfig × Stream) := do
  let s := seekS FILE_CONF_CH_NEXT s
  let (gain, s) ← bti_read_floatS s
  let (upb, s) ← bti_read_floatS s
  let (ylabel, s) ← bti_read_strS FILE_CONF_CH_YLABEL s
  let (aar, s) ← bti_read_doubleS s
  let (ck, s) ← bti_read_int32S s
  let (res, s) ← bti_read_strS FILE_CONF_CH_RESERVED s
  let s := _correct_offset s
  let (dev, s) ← _read_dev_hdr s
  let (rest, s) ← _read_ch_chan ch_type s
  let s := _correct_offset s
  pure (⟨name, chan_no, ch_type, sensor_no, gain, upb, ylabel, aar, ck, res,
         dev, rest⟩, s)

/-- `_read_ch_config(fid)` (source lines 730-777) as transcribed: the
four fields ahead of line 738 decode, then the three-argument
`fid.seek(fid, BTI.FILE_CONF_CH_NEXT, os.SEEK_CUR)` raises `TypeError` on
every record — recognized or unrecognized channel-type tag alike — so the
function never reaches the dispatch and never returns a config.  The
decoding it would otherwise perform is `_read_ch_config_rest`. -/
def _read_ch_config (s : Stream) : Except PyErr (ChConfig × Stream) :=
  match bti_read_strS FILE_CONF_CH_NAME s with
  | none => Except.error structReadError
  | some (_name, s) =>
    match bti_read_int16S s with
    | none => Except.error structReadError
    | some (_chan_no, s) =>
      match bti_read_uint16S s with
      | none => Except.error structReadError
      | some (_ch_type, s) =>
        match bti_read_int16S s with
        | none => Except.error structReadError
        | some (_sensor_no, _s) =>
          Except.error seekTypeError

/-- A 52-byte channel-config record whose channel-type field (bytes 6-7,
big-endian) holds the unrecognized tag 99; all other bytes are zero. -/
def dataC2 : List ℕ :=
  List.replicate 7 0 ++ 99 :: List.replicate 44 0

/-- The same record with the recognized shorted tag 8 in the channel-type
field: `_read_ch_config` fails on it with the very same `TypeError`. -/
def dataC2r : List ℕ :=
  List.replicate 7 0 ++ 8 :: List.replicate 44 0

/-!
## User blocks (`_read_userblock`, source lines 584-708; `read_config`,
source lines 888-929)

`_read_userblock(fid, blocks)` declares a `blocks` parameter: the channel
map branch (lines 639-657) scans that list, in order, for the first block
whose header kind is the channel-map-version tag and takes the `entries`
field of its decoded payload; when no such block exists it raises the
dedicated `ValueError` of lines 647-648 ("Cannot find block ... to
determine numberof channels" — the two adjacent string literals of the
source concatenate without a space).  That resolution step is embedded in
`ublock_resolve_num_channels` below.

The surrounding code contradicts this mechanism: `read_config` invokes
`_read_userblock(fid)` at line 922 WITHOUT the required `blocks` argument
(a `TypeError` on the first user block); `_read_userblock` stores the
decoded payload only in the local `data` dictionary, never under
`block['data']` that the scan reads (so a successful scan would still
raise `KeyError`); its final statement `retun = block` (line 708) assigns
a local variable instead of returning, so the function yields `None`; and
the channel-map payload loop itself calls an undefined `bta_read_int16`
and executes `d += [d]` on a dictionary.  Several of the remaining tag
branches (lines 694-704) are syntactically empty.  These defects are kept
out of the resolver definition, which models exactly the scan-and-fail
step the claim is about.

Modelled from the spec: the user-block kind tags are strings read from
the block header; their exact spellings are in `constants.py` (absent from
the source tree), so two distinct representative strings are used. -/

/-- Modelled from the spec: `BTI.UBLOCK_WHC_CHAN_MAP_VER`, the
channel-map-version block tag. -/
def UBLOCK_WHC_CHAN_MAP_VER : String := "B_WHChanMapVer"

/-- Modelled from the spec: `BTI.UBLOCK_WHC_CHAN_MAP`, the channel-map
block tag. -/
def UBLOCK_WHC_CHAN_MAP : String := "B_WHChanMap"

/-- The decoded payload of a user block, as far as the channel-map
dependency needs it: a channel-map-version payload carries `version`,
`struct_size` and `entries` (source lines 633-637); every other payload is
opaque here. -/
inductive UserBlockData where
  | chanMapVer (version struct_size entries : ℕ)
  | opaquePayload (payload : List ℕ)
deriving DecidableEq, Repr

/-- One already-decoded user block: its header kind tag and its payload. -/
structure UserBlock where
  kind : String
  data : UserBlockData
deriving DecidableEq, Repr

/-- The channel-count resolution of the channel-map branch (source lines
640-648): linear scan of the already-decoded blocks, in file order, for
the first channel-map-version block, taking its payload's `entries`
field; the dedicated `ValueError` when none exists.  (Reading `entries`
from a version block whose payload were not the version layout would be
the `KeyError` case.) -/
def ublock_resolve_num_channels (blocks : List UserBlock) : Except String ℕ :=
  match blocks.find? (fun b => b.kind == UBLOCK_WHC_CHAN_MAP_VER) with
  | some b =>
    match b.data with
    | UserBlockData.chanMapVer _ _ entries => Except.ok entries
    | _ => Except.error "KeyError: data"
  | none =>
    Except.error
      ("Cannot find block " ++ UBLOCK_WHC_CHAN_MAP_VER ++
        " to determine numberof channels")

/-- A channel-map-version block declaring `entries = 4`. -/
def c3_ver_block : UserBlock :=
  ⟨UBLOCK_WHC_CHAN_MAP_VER, UserBlockData.chanMapVer 1 10 4⟩

/-- An unrelated user block (the channel-map block itself, opaque here). -/
def c3_map_block : UserBlock :=
  ⟨UBLOCK_WHC_CHAN_MAP, UserBlockData.opaquePayload []⟩

/-!
## PDF assembly (`read_pdf_info`, source lines 833-885)

`read_pdf_info` decodes, from the already-located header record, exactly
`total_epochs` epoch records, then `total_chans` channel records,
`total_events` events, `total_processes` processes,
`total_associated_files` associated files and `total_ed_classes` editor
classes, captures the bytes up to the footer position as `extradata`, then
computes `total_slices` as the sum of the epochs' `pts_in_epoch` fields,
selects the element type through `DTYPES[data_format]` and sets
`bytes_per_slice = itemsize * total_chans`.

The footer-pointer gymnastics of `_read_bti_header` (lines 431-476) only
locate and decode the header record; the embedding takes that record's
count fields as given and models everything from line 851 on.  The
`os.fdopen(os.dup(...))` duplication of the handle (line 874) has no
bearing on any claim and is not modelled.  Modelled from the spec: the
`FILE_PDF_*` skip/width constants below are positive placeholders from
`constants.py` (absent from the source tree); no claim depends on their
values. -/

/-- Modelled from the spec: `BTI.FILE_PDF_EPOCH_EXIT`. -/
def FILE_PDF_EPOCH_EXIT : ℕ := 4

/-- Modelled from the spec: `BTI.FILE_PDF_CH_LABELSIZE`. -/
def FILE_PDF_CH_LABELSIZE : ℕ := 4

/-- Modelled from the spec: `BTI.FILE_PDF_CH_YLABEL`. -/
def FILE_PDF_CH_YLABEL : ℕ := 4

/-- Modelled from the spec: `BTI.FILE_PDF_CH_NEXT`. -/
def FILE_PDF_CH_NEXT : ℕ := 2

/-- Modelled from the spec: `BTI.FILE_PDF_CH_OFF_FLAG`. -/
def FILE_PDF_CH_OFF_FLAG : ℕ := 2

/-- Modelled from the spec: `BTI.FILE_PDF_CH_EXIT`. -/
def FILE_PDF_CH_EXIT : ℕ := 2

/-- Modelled from the spec: `BTI.FILE_PDF_EVENT_NAME`. -/
def FILE_PDF_EVENT_NAME : ℕ := 4

/-- Modelled from the spec: `BTI.FILE_PDF_EVENT_EXIT`. -/
def FILE_PDF_EVENT_EXIT : ℕ := 2

/-- Modelled from the spec: `BTI.FILE_PDF_PROCESS_BLOCKTYPE`. -/
def FILE_PDF_PROCESS_BLOCKTYPE : ℕ := 4

/-- Modelled from the spec: `BTI.FILE_PDF_PROCESS_USER`. -/
def FILE_PDF_PROCESS_USER : ℕ := 4

/-- Modelled from the spec: `BTI.FILE_PDF_PROCESS_FNAME`. -/
def FILE_PDF_PROCESS_FNAME : ℕ := 4

/-- Modelled from the spec: `BTI.FILE_PDF_PROCESS_EXIT`. -/
def FILE_PDF_PROCESS_EXIT : ℕ := 2

/-- Modelled from the spec: `BTI.FILE_PDF_ASSOC_NEXT`. -/
def FILE_PDF_ASSOC_NEXT : ℕ := 2

/-- Modelled from the spec: `BTI.FILE_PDFED_NAME`. -/
def FILE_PDFED_NAME : ℕ := 4

/-- Modelled from the spec: `BTI.FILE_PDFED_NEXT`. -/
def FILE_PDFED_NEXT : ℕ := 2

/-- `DTYPES` (source lines 33-34): data-format code to numpy dtype
(`1 → i2, 2 → i4, 3 → f4, 4 → f8`), kept as the dtype's `itemsize` in
bytes; a code outside `1..4` is the dictionary `KeyError`. -/
def DTYPES (data_format : ℕ) : Option ℕ :=
  if data_format = 1 then some 2
  else if data_format = 2 then some 4
  else if data_format = 3 then some 4
  else if data_format = 4 then some 8
  else none

/-- One epoch record (`_read_bti_epoch`, source lines 479-491). -/
structure EpochRec where
  pts_in_epoch : ℤ
  epoch_duration : ℕ
  expected_iti : ℕ
  actual_iti : ℕ
  total_var_events : ℤ
  checksum : ℤ
  epoch_timestamp : ℤ
deriving DecidableEq, Repr

/-- Decode one epoch record; note there is NO offset correction here. -/
def _read_bti_epoch (s : Stream) : Option (EpochRec × Stream) := do
  let (pts, s) ← bti_read_int32S s
  let (dur, s) ← bti_read_floatS s
  let (eiti, s) ← bti_read_floatS s
  let (aiti, s) ← bti_read_floatS s
  let (tve, s) ← bti_read_int32S s
  let (ck, s) ← bti_read_int32S s
  let (ts, s) ← bti_read_int32S s
  pure (⟨pts, dur, eiti, aiti, tve, ck, ts⟩, seekS FILE_PDF_EPOCH_EXIT s)

/-- One channel record (`_read_channel`, source lines 494-514). -/
structure ChannelRec where
  chan_label : List ℕ
  chan_no : ℕ
  attributes : ℕ
  scale : ℕ
  yaxis_label : List ℕ
  valid_min_max : ℕ
  ymin : ℕ
  ymax : ℕ
  index : ℤ
  checksum : ℤ
  off_flag : List ℕ
  offset : ℕ
deriving DecidableEq, Repr

/-- Decode one channel record (no offset correction). -/
def _read_channel (s : Stream) : Option (ChannelRec × Stream) := do
  let (lbl, s) ← bti_read_strS FILE_PDF_CH_LABELSIZE s
  let (cno, s) ← bti_read_int16S s
  let (attrs, s) ← bti_read_int16S s
  let (sc, s) ← bti_read_floatS s
  let (ylabel, s) ← bti_read_strS FILE_PDF_CH_YLABEL s
  let (vmm, s) ← bti_read_int16S s
  let s := seekS FILE_PDF_CH_NEXT s
  let (ymin, s) ← bti_read_doubleS s
  let (ymax, s) ← bti_read_doubleS s
  let (idx, s) ← bti_read_int32S s
  let (ck, s) ← bti_read_int32S s
  let (off, s) ← bti_read_strS FILE_PDF_CH_OFF_FLAG s
  let (ofs, s) ← bti_read_floatS s
  pure (⟨lbl, cno, attrs, sc, ylabel, vmm, ymin, ymax, idx, ck, off, ofs⟩,
        seekS FILE_PDF_CH_EXIT s)

/-- One event record (`_read_event`, source lines 517-529). -/
structure EventRec where
  event_name : List ℕ
  start_lat : ℕ
  end_lat : ℕ
  step_size : ℕ
  fixed_event : ℕ
  checksum : ℤ
deriving DecidableEq, Repr

/-- Decode one event record; ends with an offset correction. -/
def _read_event (s : Stream) : Option (EventRec × Stream) := do
  let (nm, s) ← bti_read_strS FILE_PDF_EVENT_NAME s
  let (sl, s) ← bti_read_floatS s
  let (el, s) ← bti_read_floatS s
  let (ss, s) ← bti_read_floatS s
  let (fe, s) ← bti_read_int16S s
  let (ck, s) ← bti_read_int32S s
  pure (⟨nm, sl, el, ss, fe, ck⟩,
        _correct_offset (seekS FILE_PDF_EVENT_EXIT s))

/-- One process record (`_read_process`, source lines 532-547). -/
structure ProcessRec where
  nbytes : ℤ
  blocktype : List ℕ
  checksum : ℤ
  user : List ℕ
  timestamp : ℤ
  filename : List ℕ
  total_steps : ℤ
deriving DecidableEq, Repr

/-- Decode one process record; ends with an offset correction. -/
def _read_process (s : Stream) : Option (ProcessRec × Stream) := do
  let (nb, s) ← bti_read_int32S s
  let (bt, s) ← bti_read_strS FILE_PDF_PROCESS_BLOCKTYPE s
  let (ck, s) ← bti_read_int32S s
  let (us, s) ← bti_read_strS FILE_PDF_PROCESS_USER s
  let (ts, s) ← bti_read_int32S s
  let (fn, s) ← bti_read_strS FILE_PDF_PROCESS_FNAME s
  let (st, s) ← bti_read_int32S s
  pure (⟨nb, bt, ck, us, ts, fn, st⟩,
        _correct_offset (seekS FILE_PDF_PROCESS_EXIT s))

/-- One associated-file record (`_read_assoc_file`, source lines
550-559). -/
structure AssocRec where
  file_id : ℕ
  length : ℕ
  checksum : ℤ
deriving DecidableEq, Repr

/-- Decode one associated-file record (no offset correction). -/
def _read_assoc_file (s : Stream) : Option (AssocRec × Stream) := do
  let (fi, s) ← bti_read_int16S s
  let (ln, s) ← bti_read_int16S s
  let s := seekS FILE_PDF_ASSOC_NEXT s
  let (ck, s) ← bti_read_int32S s
  pure (⟨fi, ln, ck⟩, s)

/-- One editor-class record (`_read_pfid_ed`, source lines 562-581). -/
structure EdRec where
  comment_size : ℤ
  name : List ℕ
  pdf_number : ℕ
  total_events : ℤ
  timestamp : ℤ
  flags : ℤ
  de_process : ℤ
  checksum : ℤ
  ed_id : ℤ
  win_width : ℕ
  win_offset : ℕ
deriving DecidableEq, Repr

/-- Decode one editor-class record: two `FILE_PDFED_NEXT` skips, no
offset correction. -/
def _read_pfid_ed (s : Stream) : Option (EdRec × Stream) := do
  let (cs, s) ← bti_read_int32S s
  let (nm, s) ← bti_read_strS FILE_PDFED_NAME s
  let s := seekS FILE_PDFED_NEXT s
  let (pn, s) ← bti_read_int16S s
  let (te, s) ← bti_read_int32S s
  let (ts, s) ← bti_read_int32S s
  let (fl, s) ← bti_read_int32S s
  let (dp, s) ← bti_read_int32S s
  let (ck, s) ← bti_read_int32S s
  let (ei, s) ← bti_read_int32S s
  let (ww, s) ← bti_read_floatS s
  let (wo, s) ← bti_read_floatS s
  pure (⟨cs, nm, pn, te, ts, fl, dp, ck, ei, ww, wo⟩,
        seekS FILE_PDFED_NEXT s)

/-- Decode `n` records in sequence with a single record decoder, the list
comprehension `[decode(fid) for _ in xrange(n)]`. -/
def readList {α : Type} (f : Stream → Option (α × Stream)) :
    ℕ → Stream → Option (List α × Stream)
  | 0, s => some ([], s)
  | Nat.succ k, s =>
    match f s with
    | none => none
    | some (x, s1) =>
      match readList f k s1 with
      | none => none
      | some (xs, s2) => some (x :: xs, s2)

/-- `fid.read(ftr_pos - fid.tell())` (source line 871): byte count clamped
to what remains; a negative request (footer before the current position)
reads everything to the end of the file, as Python 2's `file.read` does. -/
def readUpTo (ftr : ℕ) (s : Stream) : List ℕ × Stream :=
  if ftr < s.pos then
    (s.data.drop s.pos, ⟨s.data, s.data.length⟩)
  else
    let bs := (s.data.drop s.pos).take (ftr - s.pos)
    (bs, ⟨s.data, s.pos + bs.length⟩)

/-- The count and format fields of the decoded PDF header record that
lines 851-883 consult (`_read_bti_header` output; the other header fields
are never read downstream). -/
structure PdfHeaderCounts where
  data_format : ℕ
  total_epochs : ℕ
  total_chans : ℕ
  total_events : ℕ
  total_processes : ℕ
  total_associated_files : ℕ
  total_ed_classes : ℕ
deriving DecidableEq, Repr

/-- The `info` structure `read_pdf_info` returns (minus the duplicated
file handle). -/
structure PdfInfo where
  epochs : List EpochRec
  channels : List ChannelRec
  events : List EventRec
  processes : List ProcessRec
  assocfiles : List AssocRec
  edclasses : List EdRec
  extradata : List ℕ
  total_slices : ℤ
  dtype_itemsize : ℕ
  bytes_per_slice : ℕ
deriving DecidableEq, Repr

/-- `read_pdf_info` from the decoded header record on (source lines
851-885): the six record lists in order, the trailing `extradata`, then
`total_slices = sum(e['pts_in_epoch'])`, the `DTYPES[data_format]` lookup
and `bytes_per_slice = itemsize * total_chans`. -/
def read_pdf_info_body (hdr : PdfHeaderCounts) (ftr_pos : ℕ) (s : Stream) :
    Option PdfInfo :=
  (readList _read_bti_epoch hdr.total_epochs s).bind (fun pe =>
    (readList _read_channel hdr.total_chans pe.2).bind (fun pc =>
      (readList _read_event hdr.total_events pc.2).bind (fun pev =>
        (readList _read_process hdr.total_processes pev.2).bind (fun pp =>
          (readList _read_assoc_file hdr.total_associated_files pp.2).bind (fun pa =>
            (readList _read_pfid_ed hdr.total_ed_classes pa.2).bind (fun ped =>
              (DTYPES hdr.data_format).map (fun isz =>
                ⟨pe.1, pc.1, pev.1, pp.1, pa.1, ped.1,
                 (readUpTo ftr_pos ped.2).1,
                 ((pe.1.map EpochRec.pts_in_epoch).sum), isz,
                 isz * hdr.total_chans⟩)))))))

/-- Header record for scenario A: two epochs, data format 1 (`i2`), all
other counts zero. -/
def hdrC8 : PdfHeaderCounts :=
  ⟨1, 2, 0, 0, 0, 0, 0⟩

/-- A 64-byte stream holding two 32-byte epoch records, each declaring
`pts_in_epoch = 100` in its leading big-endian int32 (bytes 3 and 35) and
zero everywhere else. -/
def dataC8 : List ℕ :=
  List.replicate 3 0 ++ 100 :: (List.replicate 31 0 ++ 100 :: List.replicate 28 0)

/-- The decoded epoch record of scenario A. -/
def epochC8 : EpochRec :=
  ⟨100, 0, 0, 0, 0, 0, 0⟩

/-- The `info` structure scenario A produces: two 100-point epochs,
`total_slices = 200`, itemsize 2, `bytes_per_slice = 2 * 0 = 0` (no
channels). -/
def infoC8 : PdfInfo :=
  ⟨[epochC8, epochC8], [], [], [], [], [], [], 200, 2, 0⟩

/-!
## Helper lemmas
-/

/-- Two transforms with equal blocks are equal. -/
theorem T4_ext {a b : T4} (h1 : a.rot = b.rot) (h2 : a.trans = b.trans)
    (h3 : a.scal = b.scal) : a = b := by
  cases a
  cases b
  simp_all

/-- Associativity of the 3 x 3 block product. -/
theorem mat3Mul_assoc (A B C : Mat3) :
    mat3Mul (mat3Mul A B) C = mat3Mul A (mat3Mul B C) := by
  funext i j
  simp only [mat3Mul]
  ring

/-- The identity block is a left unit. -/
theorem mat3Id_mul (A : Mat3) : mat3Mul mat3Id A = A := by
  funext i j
  fin_cases i <;> simp [mat3Mul, mat3Id, Fin.ext_iff]

/-- The identity block is a right unit. -/
theorem mat3Mul_id (A : Mat3) : mat3Mul A mat3Id = A := by
  funext i j
  fin_cases j <;> simp [mat3Mul, mat3Id, Fin.ext_iff]

/-- Matrix-vector product commutes with the block product. -/
theorem mat3Vec_mul (A B : Mat3) (v : Vec3) :
    mat3Vec (mat3Mul A B) v = mat3Vec A (mat3Vec B v) := by
  funext i
  simp only [mat3Mul, mat3Vec]
  ring

/-- The identity block acts trivially on translation blocks. -/
theorem mat3Vec_id (v : Vec3) : mat3Vec mat3Id v = v := by
  funext i
  fin_cases i <;> simp [mat3Vec, mat3Id, Fin.ext_iff]

/-- After one alignment correction the position is a multiple of the
block size. -/
theorem correct_offset_mod (b cur : ℕ) (hb : 0 < b) :
    correct_offset b cur % b = 0 := by
  unfold correct_offset
  by_cases hc : cur % b = 0
  · simp [hc]
  · rw [if_pos hc]
    have h1 := Nat.div_add_mod cur b
    have h2 : cur % b < b := Nat.mod_lt _ hb
    have hsum : cur + (b - cur % b) = b * (cur / b) + b := by omega
    rw [hsum]
    have hmul : b * (cur / b) + b = b * (cur / b + 1) := by ring
    rw [hmul, Nat.mul_mod_right]

/-- A position that is already aligned is left unchanged. -/
theorem correct_offset_aligned (b cur : ℕ) (h : cur % b = 0) :
    correct_offset b cur = cur := by
  unfold correct_offset
  simp [h]

/-- A raw read succeeds whenever enough bytes remain. -/
theorem readNS_success (n : ℕ) (s : Stream) (h : s.pos + n ≤ s.data.length) :
    readNS n s = some ((s.data.drop s.pos).take n, ⟨s.data, s.pos + n⟩) := by
  unfold readNS
  rw [if_pos h]

/-- Decoding a fixed record count yields a list of exactly that length. -/
theorem readList_length {α : Type} (f : Stream → Option (α × Stream)) :
    ∀ (n : ℕ) (s : Stream) (l : List α) (s2 : Stream),
      readList f n s = some (l, s2) → l.length = n := by
  intro n
  induction n with
  | zero =>
    intro s l s2 h
    simp only [readList, Option.some.injEq, Prod.mk.injEq] at h
    rw [← h.1]
    rfl
  | succ k ih =>
    intro s l s2 h
    unfold readList at h
    cases hf : f s with
    | none => rw [hf] at h; exact Option.noConfusion h
    | some p =>
      obtain ⟨x, s1⟩ := p
      simp only [hf] at h
      cases hr : readList f k s1 with
      | none => simp only [hr] at h; exact Option.noConfusion h
      | some p2 =>
        obtain ⟨xs, s3⟩ := p2
        simp only [hr, Option.some.injEq, Prod.mk.injEq] at h
        rw [← h.1]
        simp [ih s1 xs s3 hr]

/-!
## Claim C1 — inverse/forward round trip
-/

/-- C1, counterexample.  The round trip `_apply_t(_inverse_t(x, t), t)`
fails at `x` the identity matrix for two transforms with every scale entry
nonzero: `t0C1` (orthogonal rotation, one scale entry 2 — the scale is
multiplied twice instead of cancelling, giving 4) and `t1C1` (rotation
block `2·I`, all scale entries 1 — the rotation is transposed, not
inverted).  So the round trip does NOT hold for every transform with
nonzero scale. -/
theorem c1_roundtrip_counterexample :
    (t0C1.scal 0 ≠ 0 ∧ t0C1.scal 1 ≠ 0 ∧ t0C1.scal 2 ≠ 0 ∧ t0C1.scal 3 ≠ 0) ∧
    applyT (inverseT identT t0C1) t0C1 ≠ identT ∧
    (t1C1.scal 0 ≠ 0 ∧ t1C1.scal 1 ≠ 0 ∧ t1C1.scal 2 ≠ 0 ∧ t1C1.scal 3 ≠ 0) ∧
    applyT (inverseT identT t1C1) t1C1 ≠ identT := by
  refine ⟨⟨by decide, by decide, by decide, by decide⟩, ?_,
    ⟨by decide, by decide, by decide, by decide⟩, ?_⟩
  · intro h
    have hs := congrFun (congrArg T4.scal h) 3
    have h1 : (applyT (inverseT identT t0C1) t0C1).scal 3 = 4 := by
      norm_num [applyT, inverseT, identT, t0C1]
    have h2 : identT.scal 3 = 1 := by norm_num [identT]
    rw [h1, h2] at hs
    norm_num at hs
  · intro h
    have hr := congrFun (congrFun (congrArg T4.rot h) 0) 0
    have h1 : (applyT (inverseT identT t1C1) t1C1).rot 0 0 = 4 := by
      show mat3Mul t1C1.rot (mat3Mul (mat3Tr t1C1.rot) identT.rot) 0 0 = 4
      simp [mat3Mul, mat3Tr, mat3Id, t1C1, identT, Fin.ext_iff]
      norm_num
    have h2 : identT.rot 0 0 = 1 := by norm_num [identT, mat3Id]
    rw [h1, h2] at hr
    norm_num at hr

/-- C1, amended.  `_apply_t(_inverse_t(x, t), t) = x` for every matrix `x`
and every transform `t` whose rotation block is orthogonal and whose scale
entries all square to 1 (scale `±1`): since `_inverse_t` multiplies by
`t`'s scale exactly as `_apply_t` does, the scale enters the round trip
squared instead of cancelling, so it does NOT hold for other nonzero
scales. -/
theorem c1_roundtrip_amended (x t : T4)
    (h1 : mat3Mul t.rot (mat3Tr t.rot) = mat3Id)
    (h2 : ∀ j, t.scal j * t.scal j = 1) :
    applyT (inverseT x t) t = x := by
  refine T4_ext ?_ ?_ ?_
  · show mat3Mul t.rot (mat3Mul (mat3Tr t.rot) x.rot) = x.rot
    rw [← mat3Mul_assoc, h1, mat3Id_mul]
  · show (fun i =>
        mat3Vec t.rot (mat3Vec (mat3Tr t.rot) (fun k => x.trans k - t.trans k)) i +
          t.trans i) = x.trans
    funext i
    rw [← mat3Vec_mul, h1, mat3Vec_id]
    ring
  · show (fun j => x.scal j * t.scal j * t.scal j) = x.scal
    funext j
    rw [mul_assoc, h2 j, mul_one]

/-- C1, witness: the amended round trip at the concrete transform `tW1`
(identity rotation, scale row all ones) and `x` the identity. -/
theorem c1_roundtrip_witness :
    mat3Mul tW1.rot (mat3Tr tW1.rot) = mat3Id ∧
    applyT (inverseT identT tW1) tW1 = identT := by
  have h1 : mat3Mul tW1.rot (mat3Tr tW1.rot) = mat3Id := by
    funext i j
    fin_cases i <;> fin_cases j <;> simp [mat3Mul, mat3Tr, mat3Id, tW1]
  exact ⟨h1, c1_roundtrip_amended identT tW1 h1 (fun j => by norm_num [tW1])⟩

/-!
## Claim C7 — merge identity laws
-/

/-- C7, counterexample.  `_merge_t` writes only the rotation and
translation blocks onto a fresh identity matrix, so its result's scale row
is always the identity's: for `tC7` (scale entry 2) neither
`_merge_t(identity, t) = t` nor `_merge_t(t, identity) = t` holds — the
laws fail precisely for transforms whose scale component differs from the
identity's. -/
theorem c7_merge_identity_counterexample :
    tC7.scal 3 ≠ 1 ∧ mergeT identT tC7 ≠ tC7 ∧ mergeT tC7 identT ≠ tC7 := by
  refine ⟨by norm_num [tC7], ?_, ?_⟩
  · intro h
    have hs := congrFun (congrArg T4.scal h) 3
    norm_num [mergeT, identT, tC7] at hs
  · intro h
    have hs := congrFun (congrArg T4.scal h) 3
    norm_num [mergeT, identT, tC7] at hs

/-- C7, amended.  `_merge_t(identity, t) = t` and `_merge_t(t, identity)
= t` for every transform `t` whose scale row equals the identity's
`(0, 0, 0, 1)`; for any other scale row both laws fail, because `_merge_t`
always returns the identity's scale row. -/
theorem c7_merge_identity_amended (t : T4) (h : t.scal = identT.scal) :
    mergeT identT t = t ∧ mergeT t identT = t := by
  constructor
  · refine T4_ext ?_ ?_ ?_
    · show mat3Mul mat3Id t.rot = t.rot
      exact mat3Id_mul t.rot
    · funext i
      show mat3Vec mat3Id t.trans i + identT.trans i = t.trans i
      rw [mat3Vec_id]
      simp [identT]
    · exact h.symm
  · refine T4_ext ?_ ?_ ?_
    · show mat3Mul t.rot mat3Id = t.rot
      exact mat3Mul_id t.rot
    · funext i
      show mat3Vec t.rot identT.trans i + t.trans i = t.trans i
      have hz : mat3Vec t.rot identT.trans i = 0 := by
        simp [mat3Vec, identT]
      rw [hz, zero_add]
    · exact h.symm

/-- C7, witness: the amended laws at the identity transform itself. -/
theorem c7_merge_identity_witness :
    identT.scal = identT.scal ∧ mergeT identT identT = identT :=
  ⟨rfl, (c7_merge_identity_amended identT rfl).1⟩

/-!
## Claim C9 — offset-correction idempotence
-/

/-- C9.  For every positive block size `b` and starting position, a
second application of the alignment correction is a no-op; in particular
`_correct_offset` (at the format's fixed block size) is idempotent on
every stream. -/
theorem c9_offset_idempotent (b cur : ℕ) (s : Stream) (hb : 0 < b) :
    correct_offset b (correct_offset b cur) = correct_offset b cur ∧
    _correct_offset (_correct_offset s) = _correct_offset s := by
  have key : ∀ c : ℕ, 0 < b → correct_offset b (correct_offset b c) = correct_offset b c :=
    fun c hbp => correct_offset_aligned b (correct_offset b c) (correct_offset_mod b c hbp)
  refine ⟨key cur hb, ?_⟩
  show (⟨s.data, correct_offset FILE_CURPOS (correct_offset FILE_CURPOS s.pos)⟩ : Stream) =
    ⟨s.data, correct_offset FILE_CURPOS s.pos⟩
  rw [correct_offset_aligned FILE_CURPOS _ (correct_offset_mod FILE_CURPOS s.pos (by norm_num [FILE_CURPOS]))]

/-- C9, witness: block size 8, starting position 5, a stream parked at
position 3. -/
theorem c9_offset_idempotent_witness :
    0 < 8 ∧
    (correct_offset 8 (correct_offset 8 5) = correct_offset 8 5 ∧
     _correct_offset (_correct_offset ⟨[], 3⟩) = _correct_offset ⟨[], 3⟩) :=
  ⟨by norm_num, c9_offset_idempotent 8 5 ⟨[], 3⟩ (by norm_num)⟩

/-!
## Claim C4 — 16-bit integer decoding
-/

/-- C4.  `bti_read_int16` on the bytes `0xFF 0xFF` decodes the UNSIGNED
value 65535 (format `>H`) while advancing the position by exactly 2 bytes;
the signed two's-complement reading the contract promises for those bytes
is `-1`, a different value.  The position-advance half of the claim holds;
the signedness half does not. -/
theorem c4_int16_unsigned_decode :
    bti_read_int16S ⟨[255, 255], 0⟩ = some (65535, ⟨[255, 255], 2⟩) ∧
    int16_be_signed 255 255 = -1 ∧ (65535 : ℤ) ≠ -1 := by
  refine ⟨rfl, by decide, by decide⟩

/-!
## Claim C5 — sample-range validation
-/

/-- C5.  Whenever the caller-supplied range (after substituting the
defaults `start = 0`, `stop = total_slices`) has `start < 0`,
`stop > total_slices` or `start ≥ stop`, `read_raw_data` returns the range
error and the file handle's position is exactly the position it held
before the call: the check precedes every seek and read. -/
theorem c5_range_error_no_seek (info : PdfRunInfo) (start0 stop0 : Option ℤ)
    (h : start0.getD 0 < 0 ∨ stop0.getD info.total_slices > info.total_slices ∨
      start0.getD 0 ≥ stop0.getD info.total_slices) :
    read_raw_data info start0 stop0 =
      (Except.error (rangeErrorMsg (start0.getD 0) (stop0.getD info.total_slices)),
       info.fid_pos) := by
  unfold read_raw_data
  rw [if_pos h]

/-- C5, witness: `start = 3 ≥ stop = 2` against 5 total slices fails with
the range error and leaves the handle at its prior position 7. -/
theorem c5_range_error_witness :
    ((3 : ℤ) ≥ 2) ∧
    read_raw_data infoC5 (some 3) (some 2) =
      (Except.error (rangeErrorMsg 3 2), 7) := by
  refine ⟨by norm_num, ?_⟩
  exact c5_range_error_no_seek infoC5 (some 3) (some 2) (Or.inr (Or.inr (by norm_num [infoC5])))

/-!
## Claim C3 — channel-map cross-block dependency
-/

/-- C3.  The channel-count resolution step of the channel-map branch
(source lines 640-648): scanning a decoded-block list containing a
channel-map-version block with `entries = 4` resolves the channel count 4;
scanning a list without one fails with the dedicated dependency error
(message transcribed from the source, whose adjacent string literals
concatenate to "numberof").  The branch as actually invoked cannot run:
`read_config` (line 922) calls `_read_userblock(fid)` without the `blocks`
argument the scan needs, `_read_userblock` never stores the decoded
payload under `block['data']` and ends with `retun = block` instead of a
return statement. -/
theorem c3_chan_map_dependency_scan :
    ublock_resolve_num_channels [c3_ver_block, c3_map_block] = Except.ok 4 ∧
    ublock_resolve_num_channels [c3_map_block] =
      Except.error ("Cannot find block " ++ UBLOCK_WHC_CHAN_MAP_VER ++
        " to determine numberof channels") :=
  ⟨rfl, rfl⟩

/-!
## Claim C2 — unknown channel-type tags
-/

/-- C2, counterexample.  On the concrete record whose channel-type field
holds the unrecognized tag 99, `_read_ch_config` fails with the
unconditional `TypeError` of the malformed three-argument seek at source
line 738 — an error that carries no record or field information and is
NOT a format error — and the identical record with the recognized shorted
tag 8 fails with the very same error.  So the failure that occurs neither
is a descriptive format error naming the offending record/field nor
depends on the tag at all, refuting the claimed unknown-tag error
behaviour. -/
theorem c2_unknown_tag_counterexample :
    (99 ∉ recognized_ch_types) ∧
    _read_ch_config ⟨dataC2, 0⟩ = Except.error seekTypeError ∧
    (CHTYPE_SHORTED ∈ recognized_ch_types) ∧
    _read_ch_config ⟨dataC2r, 0⟩ = Except.error seekTypeError :=
  ⟨by decide, rfl, by decide, rfl⟩

/-- C2, amended.  As transcribed, `_read_ch_config` never returns a
config for any record — in particular never for an unknown-tag record —
because the three-argument `fid.seek` call at source line 738 raises
`TypeError` before the channel-type dispatch is reached: whenever the
four fields ahead of it decode (10 bytes under the modelled widths), the
failure is exactly that tag-independent `TypeError`, not a descriptive
format error naming the offending record/field.  Moreover the dispatch
the function never reaches has no error branch for an unknown tag: it
would silently accept the record with a `chan` sub-record holding no
type-specific fields, so the claimed fail-fast-on-unknown-tag behaviour
exists nowhere in the code. -/
theorem c2_unknown_tag_amended (s : Stream) :
    (∀ (cfg : ChConfig) (s2 : Stream), _read_ch_config s ≠ Except.ok (cfg, s2)) ∧
    (s.pos + 10 ≤ s.data.length → _read_ch_config s = Except.error seekTypeError) ∧
    (∀ ct, ct ∉ recognized_ch_types → ∀ s3 : Stream,
      _read_ch_chan ct s3 = some (ChanRest.unknownTag, s3)) := by
  refine ⟨?_, ?_, ?_⟩
  · intro cfg s2 hok
    unfold _read_ch_config at hok
    cases h1 : bti_read_strS FILE_CONF_CH_NAME s with
    | none => simp only [h1] at hok; exact Except.noConfusion hok
    | some p1 =>
      obtain ⟨a1, t1⟩ := p1
      simp only [h1] at hok
      cases h2 : bti_read_int16S t1 with
      | none => simp only [h2] at hok; exact Except.noConfusion hok
      | some p2 =>
        obtain ⟨a2, t2⟩ := p2
        simp only [h2] at hok
        cases h3 : bti_read_uint16S t2 with
        | none => simp only [h3] at hok; exact Except.noConfusion hok
        | some p3 =>
          obtain ⟨a3, t3⟩ := p3
          simp only [h3] at hok
          cases h4 : bti_read_int16S t3 with
          | none => simp only [h4] at hok; exact Except.noConfusion hok
          | some p4 =>
            obtain ⟨a4, t4⟩ := p4
            simp only [h4] at hok
            exact Except.noConfusion hok
  · intro hlen
    unfold _read_ch_config
    have r1 : bti_read_strS FILE_CONF_CH_NAME s =
        some (((s.data.drop s.pos).take FILE_CONF_CH_NAME).takeWhile
            (fun b => b != 0),
          ⟨s.data, s.pos + FILE_CONF_CH_NAME⟩) := by
      unfold bti_read_strS
      rw [readNS_success FILE_CONF_CH_NAME s (by show s.pos + 4 ≤ s.data.length; omega)]
      rfl
    have r2 : bti_read_int16S (⟨s.data, s.pos + FILE_CONF_CH_NAME⟩ : Stream) =
        some (beUnsigned ((s.data.drop (s.pos + FILE_CONF_CH_NAME)).take 2),
          ⟨s.data, s.pos + FILE_CONF_CH_NAME + 2⟩) := by
      unfold bti_read_int16S
      rw [readNS_success 2 ⟨s.data, s.pos + FILE_CONF_CH_NAME⟩
        (by show s.pos + 4 + 2 ≤ s.data.length; omega)]
      rfl
    have r3 : bti_read_uint16S (⟨s.data, s.pos + FILE_CONF_CH_NAME + 2⟩ : Stream) =
        some (beUnsigned ((s.data.drop (s.pos + FILE_CONF_CH_NAME + 2)).take 2),
          ⟨s.data, s.pos + FILE_CONF_CH_NAME + 2 + 2⟩) := by
      unfold bti_read_uint16S
      rw [readNS_success 2 ⟨s.data, s.pos + FILE_CONF_CH_NAME + 2⟩
        (by show s.pos + 4 + 2 + 2 ≤ s.data.length; omega)]
      rfl
    have r4 : bti_read_int16S (⟨s.data, s.pos + FILE_CONF_CH_NAME + 2 + 2⟩ : Stream) =
        some (beUnsigned ((s.data.drop (s.pos + FILE_CONF_CH_NAME + 2 + 2)).take 2),
          ⟨s.data, s.pos + FILE_CONF_CH_NAME + 2 + 2 + 2⟩) := by
      unfold bti_read_int16S
      rw [readNS_success 2 ⟨s.data, s.pos + FILE_CONF_CH_NAME + 2 + 2⟩
        (by show s.pos + 4 + 2 + 2 + 2 ≤ s.data.length; omega)]
      rfl
    simp only [r1, r2, r3, r4]
  · intro ct hct s3
    simp only [recognized_ch_types, List.mem_cons, List.not_mem_nil, or_false] at hct
    push_neg at hct
    obtain ⟨h1, h2, h3, h4, h5, h6, h7, h8⟩ := hct
    simp [_read_ch_chan, h1, h2, h3, h4, h5, h6, h7, h8]

/-- C2, witness: the amended statement at the concrete 52-byte record
carrying tag 99 (the crash hypothesis discharged by evaluation) and the
dispatch at tag 99 on the empty stream. -/
theorem c2_unknown_tag_witness :
    ((⟨dataC2, 0⟩ : Stream).pos + 10 ≤ (⟨dataC2, 0⟩ : Stream).data.length) ∧
    _read_ch_config ⟨dataC2, 0⟩ = Except.error seekTypeError ∧
    (99 ∉ recognized_ch_types) ∧
    _read_ch_chan 99 ⟨[], 0⟩ = some (ChanRest.unknownTag, ⟨[], 0⟩) :=
  ⟨by decide, (c2_unknown_tag_amended ⟨dataC2, 0⟩).2.1 (by decide),
   by decide, (c2_unknown_tag_amended ⟨dataC2, 0⟩).2.2 99 (by decide) ⟨[], 0⟩⟩

/-!
## Claim C8 — total slices and bytes per slice
-/

/-- C8.  Whenever `read_pdf_info` completes (from the decoded header
record on), the epoch list holds exactly `total_epochs` decoded records,
`total_slices` is the sum of their `pts_in_epoch` fields, the element
size is the one `DTYPES` selects for the header's `data_format`, and
`bytes_per_slice` is that element size times `total_chans`. -/
theorem c8_total_slices (hdr : PdfHeaderCounts) (ftr_pos : ℕ) (s : Stream)
    (info : PdfInfo) (h : read_pdf_info_body hdr ftr_pos s = some info) :
    info.epochs.length = hdr.total_epochs ∧
    info.total_slices = (info.epochs.map EpochRec.pts_in_epoch).sum ∧
    DTYPES hdr.data_format = some info.dtype_itemsize ∧
    info.bytes_per_slice = info.dtype_itemsize * hdr.total_chans := by
  simp only [read_pdf_info_body, Option.bind_eq_some, Option.map_eq_some'] at h
  obtain ⟨pe, h1, pc, h2, pev, h3, pp, h4, pa, h5, ped, h6, isz, h7, h8⟩ := h
  subst h8
  exact ⟨readList_length _ _ _ _ _ h1, rfl, h7, rfl⟩

/-- C8, witness: scenario A — a header declaring 2 epochs and data format
1, a stream holding two epoch records with `pts_in_epoch = 100` each,
yielding `total_slices = 200`. -/
theorem c8_total_slices_witness :
    read_pdf_info_body hdrC8 64 ⟨dataC8, 0⟩ = some infoC8 ∧
    infoC8.total_slices = (infoC8.epochs.map EpochRec.pts_in_epoch).sum ∧
    infoC8.total_slices = 200 := by
  have h : read_pdf_info_body hdrC8 64 ⟨dataC8, 0⟩ = some infoC8 := by decide
  exact ⟨h, (c8_total_slices hdrC8 64 ⟨dataC8, 0⟩ infoC8 h).2.1, rfl⟩

/-!
## Claim C6 — head-shape point classification
-/

/-- The classification loop agrees pointwise with the claimed
classification for every running index, provided there are at least 5
index points. -/
theorem convert_dig_go_claimed (n_idx : ℕ) (use_hpi : Bool) (hn : 5 ≤ n_idx) :
    ∀ (l : List Pt) (idx : ℕ),
      (convert_dig_go n_idx use_hpi idx l).map (fun d => (d.kind, d.r)) =
        convert_dig_claimed_go n_idx use_hpi idx l := by
  intro l
  induction l with
  | nil => intro idx; simp [convert_dig_go, convert_dig_claimed_go]
  | cons r rest ih =>
    intro idx
    by_cases hskip : 2 < idx ∧ idx < n_idx ∧ use_hpi = false
    · have hkeep : ¬(idx < 3 ∨ n_idx ≤ idx ∨ use_hpi = true) := by
        obtain ⟨a, b, c⟩ := hskip
        push_neg
        exact ⟨by omega, by omega, by simp [c]⟩
      simp only [convert_dig_go, convert_dig_claimed_go]
      rw [if_pos hskip, if_neg hkeep]
      exact ih (idx + 1)
    · have hkeep : idx < 3 ∨ n_idx ≤ idx ∨ use_hpi = true := by
        rcases Nat.lt_or_ge idx 3 with h3 | h3
        · exact Or.inl h3
        rcases Nat.lt_or_ge idx n_idx with h5 | h5
        · cases hb : use_hpi with
          | false => exact absurd ⟨by omega, h5, hb⟩ hskip
          | true => exact Or.inr (Or.inr rfl)
        · exact Or.inr (Or.inl h5)
      simp only [convert_dig_go, convert_dig_claimed_go]
      rw [if_neg hskip, if_pos hkeep, List.map_cons]
      congr 1
      · rcases Nat.lt_or_ge idx 3 with h3 | h3
        · have c1 : ¬(2 < idx ∧ idx < n_idx ∧ use_hpi = true) := by
            intro hx
            omega
          have c2 : ¬(4 < idx) := by omega
          simp [dig_point, claimed_kind, h3, c1, c2]
        · rcases Nat.lt_or_ge idx n_idx with h5 | h5
          · have hb : use_hpi = true := by
              cases hb : use_hpi with
              | false => exact absurd ⟨by omega, h5, hb⟩ hskip
              | true => rfl
            have c1 : 2 < idx ∧ idx < n_idx ∧ use_hpi = true := ⟨by omega, h5, hb⟩
            have c2 : ¬(idx < 3) := by omega
            simp [dig_point, claimed_kind, c1, c2, h5]
          · have c1 : ¬(idx < 3) := by omega
            have c2 : ¬(2 < idx ∧ idx < n_idx ∧ use_hpi = true) := by
              intro hx
              omega
            have c3 : 4 < idx := by omega
            have c4 : ¬(idx < n_idx) := by omega
            simp [dig_point, claimed_kind, c1, c2, c3, c4]
      · exact ih (idx + 1)

/-- C6, counterexample.  With 4 index points and a fifth (extra) point,
the loop keeps the point at index 4 — a "remaining" index, which the
claim says is classified as an extra digitization point — but assigns it
NO kind at all: its `kind` stays at the default `None` (the `elif` guard
of source line 364 tests `idx > 4`, not `idx >= len(idx_points)`). -/
theorem c6_classification_counterexample :
    (convert_head_shape_dig ptsC6 4 false).map (fun d => d.kind) =
      [some DigKind.cardinal, some DigKind.cardinal, some DigKind.cardinal,
       none] := by
  decide

/-- C6, amended.  Provided the index-point count is at least 5 (the
on-disk format's fixed index-point matrix satisfies this), the point list
is classified and filtered exactly as claimed: indices 0-2 cardinal and
always kept, indices 3 to `n_idx - 1` head-position-indicator and kept
exactly when `use_hpi` is set, all remaining indices extra and always
kept.  For index-point counts of 3 or 4 the remaining indices 3 and 4 are
kept but left unclassified. -/
theorem c6_classification_amended (all_points : List Pt) (n_idx : ℕ)
    (use_hpi : Bool) (hn : 5 ≤ n_idx) :
    (convert_head_shape_dig all_points n_idx use_hpi).map (fun d => (d.kind, d.r)) =
      convert_dig_claimed_go n_idx use_hpi 0 all_points :=
  convert_dig_go_claimed n_idx use_hpi hn all_points 0

/-- C6, witness: the amended classification at 6 concrete points, 5 index
points, `use_hpi` set. -/
theorem c6_classification_witness :
    5 ≤ 5 ∧
    (convert_head_shape_dig ptsC6W 5 true).map (fun d => (d.kind, d.r)) =
      convert_dig_claimed_go 5 true 0 ptsC6W :=
  ⟨by norm_num, c6_classification_amended ptsC6W 5 true (by norm_num)⟩

/-!
## Claim C10 — channel renaming
-/

/-- `renameOne` depends on its counter arguments only through their
values. -/
theorem renameOne_arg_congr (s : String) {a a2 b b2 c c2 d d2 e e2 : ℕ}
    (ha : a = a2) (hb : b = b2) (hc : c = c2) (hd : d = d2) (he : e = e2) :
    renameOne s a b c d e = renameOne s a2 b2 c2 d2 e2 := by
  rw [ha, hb, hc, hd, he]

/-- The counter-threading loop of `_rename_channels` equals the closed,
position-indexed form: the name at position `k` (0-based) is renamed with
1-based position `i + k` and each category counter advanced by the number
of earlier labels reaching the same branch. -/
theorem renameGo_eq_map (l : List String) :
    ∀ (i e m g x : ℕ),
      renameGo i e m g x l =
        (List.range l.length).map (fun k =>
          renameOne (l.getD k "") (i + k)
            (e + (l.take k).countP hitsEOG) (m + (l.take k).countP hitsMag)
            (g + (l.take k).countP hitsGrad) (x + (l.take k).countP hitsExt)) := by
  induction l with
  | nil => intro i e m g x; simp [renameGo]
  | cons n rest ih =>
    intro i e m g x
    rw [renameGo, ih]
    rw [List.length_cons, List.range_succ_eq_map, List.map_cons, List.map_map]
    refine congrArg₂ List.cons ?_ ?_
    · simp
    · refine List.map_congr_left fun k hk => ?_
      simp only [Function.comp_apply, List.getD_cons_succ, List.take_succ_cons,
        List.countP_cons]
      exact renameOne_arg_congr _ (by omega) (by omega) (by omega) (by omega)
        (by omega)

/-- C10.  `_rename_channels` yields exactly one output per input label in
input order; the output at position `k` depends only on the label there,
its 1-based position, and the number of earlier labels in each renaming
category: MEG names are numbered by position in the whole list, the
reference-magnetometer, reference-gradiometer, EOG and external counters
each start at 1 and advance per matching label in encounter order, fixed
names map to their fixed replacements, and any other label passes through
unchanged (the final branch of `renameOne`). -/
theorem c10_rename_channels (names : List String) :
    _rename_channels names = (List.range names.length).map (renameSpecAt names) := by
  unfold _rename_channels
  rw [renameGo_eq_map]
  apply List.map_congr_left
  intro k hk
  simp [renameSpecAt, Nat.add_comm]

end BtiSpec
